import Mathlib

/-!
# Shallow embedding of `src/Thermostat/FanCoilHelper.cpp` (RoomThermostat)

Floating-point (`float`/`double`) values of the C++ source are embedded as
rationals (`ℚ`): the claims under verification concern window semantics,
frame effects and divisor non-nullity, not bit-level rounding of IEEE
arithmetic.  Machine integers (`uint8`, `size_t`) are embedded as `ℕ`; the
capacities involved are small per-channel constants, far below any
overflow boundary.

Code of the repository that is not under `src/` (the header
`FanCoilHelper.h` with the `DeviceSettings` record and the per-channel
array-length constants, the `roundF` helper from `KMPCommon.h`, and the
main sketch's ring-buffer insertion) is modelled from the spec; each such
definition carries a doc comment starting `Modelled from the spec:`.
-/

set_option autoImplicit false

namespace FanCoil

/-! ## Rounding (`roundF` from KMPCommon, used by `calcAverage`) -/

/-- Round-half-away-from-zero to the nearest integer. -/
def roundHalfAway (q : ℚ) : ℤ :=
  if 0 ≤ q then ⌊q + 1/2⌋ else ⌈q - 1/2⌉

/-- Modelled from the spec: `roundF(value, precision)` (declared in
`KMPCommon.h`, which is not under `src/`) rounds `value`
half-away-from-zero to `precision` decimal digits. -/
def roundF (value : ℚ) (precision : ℕ) : ℚ :=
  (roundHalfAway (value * 10 ^ precision) : ℚ) / 10 ^ precision

/-! ## `calcAverage` (FanCoilHelper.cpp lines 43–57)

The C loop sums `data[0] … data[dataLength-1]`, divides by `dataLength`
and rounds to `precision` digits.  The buffer is embedded as a `List ℚ`;
the loop reads exactly the first `dataLength` entries, i.e. the sum of
`data.take dataLength`. -/

def calcAverage (data : List ℚ) (dataLength : ℕ) (precision : ℕ) : ℚ :=
  roundF ((data.take dataLength).sum / (dataLength : ℚ)) precision

/-! ## Sensor data model (struct `SensorData` from FanCoilHelper.h,
reconstructed from its uses in FanCoilHelper.cpp) -/

inductive SensorDataType
  | Temperature
  | Humidity
  | InletPipe
deriving DecidableEq, Repr

structure SensorData where
  IsExists : Bool
  Current : ℚ
  Average : ℚ
  DataCollection : List ℚ
  DataCollectionLen : ℕ
  Precision : ℕ
  CheckDataIntervalMS : ℕ
  DataType : SensorDataType
deriving DecidableEq, Repr

/-- `setArrayValues` (FanCoilHelper.cpp lines 273–286): if the sensor does
not exist, return unchanged; otherwise the loop writes
`DataCollection[i] = Current` for `i = 0 … DataCollectionLen - 1`, then
sets `Average = Current`. -/
def setArrayValues (sensor : SensorData) : SensorData :=
  if !sensor.IsExists then
    sensor
  else
    { sensor with
      DataCollection :=
        (List.range sensor.DataCollectionLen).foldl
          (fun l i => l.set i sensor.Current) sensor.DataCollection
      Average := sensor.Current }

/-- Modelled from the spec: `recordAndAverage(channel, newValue)` (the
ring-buffer insertion lives in the main sketch, which is not under
`src/`) appends `newValue` into the ring buffer, evicting the oldest
slot, then recomputes the average with `calcAverage` (which is in
`src/`) and returns it. -/
def recordAndAverage (sensor : SensorData) (newValue : ℚ) : SensorData × ℚ :=
  let samples := sensor.DataCollection.drop 1 ++ [newValue]
  let avg := calcAverage samples sensor.DataCollectionLen sensor.Precision
  ({ sensor with DataCollection := samples, Average := avg }, avg)

/-- Feed a sequence of readings through `recordAndAverage`, keeping the
channel state. -/
def feedReadings (sensor : SensorData) (rs : List ℚ) : SensorData :=
  rs.foldl (fun s v => (recordAndAverage s v).1) sensor

/-! ## Per-channel constants and `initializeSensorData`
(FanCoilHelper.cpp lines 5–12, 288–307) -/

/-- Modelled from the spec: the per-channel array lengths and precisions
are fixed constants from `FanCoilHelper.h`, which is not under `src/`.
The spec fixes them as positive per-channel constants and its worked
example uses capacity 5 and precision 1; the humidity and inlet values
are representative positive constants. -/
def TEMPERATURE_ARRAY_LEN : ℕ := 5

/-- Modelled from the spec: see `TEMPERATURE_ARRAY_LEN`. -/
def HUMIDITY_ARRAY_LEN : ℕ := 5

/-- Modelled from the spec: see `TEMPERATURE_ARRAY_LEN`. -/
def INLET_ARRAY_LEN : ℕ := 5

/-- Modelled from the spec: see `TEMPERATURE_ARRAY_LEN`. -/
def TEMPERATURE_PRECISION : ℕ := 1

/-- Modelled from the spec: see `TEMPERATURE_ARRAY_LEN`. -/
def HUMIDITY_PRECISION : ℕ := 1

/-- Modelled from the spec: see `TEMPERATURE_ARRAY_LEN`. -/
def INLET_PRECISION : ℕ := 1

/-- Modelled from the spec: see `TEMPERATURE_ARRAY_LEN`. -/
def CHECK_TEMP_INTERVAL_MS : ℕ := 1000

/-- Modelled from the spec: see `TEMPERATURE_ARRAY_LEN`. -/
def CHECK_HUMIDITY_INTERVAL_MS : ℕ := 1000

/-- Modelled from the spec: see `TEMPERATURE_ARRAY_LEN`. -/
def CHECK_INLET_INTERVAL_MS : ℕ := 1000

/-- The global zero-initialized `float TempCollection[TEMPERATURE_ARRAY_LEN]`
(FanCoilHelper.cpp line 6). -/
def TempCollection : List ℚ := List.replicate TEMPERATURE_ARRAY_LEN 0

/-- The global zero-initialized `float HumidityCollection[HUMIDITY_ARRAY_LEN]`
(FanCoilHelper.cpp line 9). -/
def HumidityCollection : List ℚ := List.replicate HUMIDITY_ARRAY_LEN 0

/-- The global zero-initialized `float InletCollection[INLET_ARRAY_LEN]`
(FanCoilHelper.cpp line 12). -/
def InletCollection : List ℚ := List.replicate INLET_ARRAY_LEN 0

/-- A zero-initialized global `SensorData` (C++ zero-initializes the
globals at lines 5, 8, 11 before `initializeSensorData` runs). -/
def zeroSensorData : SensorData :=
  { IsExists := false
    Current := 0
    Average := 0
    DataCollection := []
    DataCollectionLen := 0
    Precision := 0
    CheckDataIntervalMS := 0
    DataType := SensorDataType.Temperature }

/-- `initializeSensorData` (FanCoilHelper.cpp lines 288–307), applied to
one channel: sets the collection, its length, the precision, the check
interval and the data type. -/
def initSensorChannel (s : SensorData) (coll : List ℚ) (len precision interval : ℕ)
    (ty : SensorDataType) : SensorData :=
  { s with
    DataCollection := coll
    DataCollectionLen := len
    Precision := precision
    CheckDataIntervalMS := interval
    DataType := ty }

/-- The global `TemperatureData` after `initializeSensorData` has run. -/
def TemperatureData : SensorData :=
  initSensorChannel zeroSensorData TempCollection TEMPERATURE_ARRAY_LEN
    TEMPERATURE_PRECISION CHECK_TEMP_INTERVAL_MS SensorDataType.Temperature

/-- The global `HumidityData` after `initializeSensorData` has run. -/
def HumidityData : SensorData :=
  initSensorChannel zeroSensorData HumidityCollection HUMIDITY_ARRAY_LEN
    HUMIDITY_PRECISION CHECK_HUMIDITY_INTERVAL_MS SensorDataType.Humidity

/-- The global `InletData` after `initializeSensorData` has run. -/
def InletData : SensorData :=
  initSensorChannel zeroSensorData InletCollection INLET_ARRAY_LEN
    INLET_PRECISION CHECK_INLET_INTERVAL_MS SensorDataType.InletPipe

/-! ## `copyJsonValue` (FanCoilHelper.cpp lines 83–97), byte-level

The destination is modelled as unbounded memory `ℕ → Char` so that the
function's write footprint is visible: the C code has no notion of the
destination's capacity.  A `NULL` json value returns immediately;
otherwise `strncpy(s, jsonValue, len)` writes `jsonValue[0 … len-1]` to
`s[0 … len-1]` and then `s[len] = nul`, with `len = strlen(jsonValue)`. -/

/-- The C string terminator. -/
def nullChar : Char := Char.ofNat 0

/-- `copyJsonValue` (FanCoilHelper.cpp lines 83–97) acting on destination
memory `s`: `none` models a `NULL` source (early return, destination kept);
`some v` models a source string of `strlen` `v.length` whose copy writes
indices `0 … v.length - 1` with the source bytes and index `v.length`
with the terminator. -/
def copyJsonValue (s : ℕ → Char) (jsonValue : Option (List Char)) : ℕ → Char :=
  match jsonValue with
  | Option.none => s
  | Option.some v => fun i =>
      if h : i < v.length then v.get ⟨i, h⟩
      else if i = v.length then nullChar
      else s i

/-- The property claimed of `copyJsonValue`: no write ever lands at an
index at or beyond the destination field's declared maximum length `cap`,
regardless of the source. -/
def copyStaysWithin (cap : ℕ) : Prop :=
  ∀ (s : ℕ → Char) (jsonValue : Option (List Char)) (i : ℕ),
    cap ≤ i → copyJsonValue s jsonValue i = s i

/-- The six copy-back `strcpy` calls after onboarding
(FanCoilHelper.cpp lines 213–218), acting on destination memory:
`strcpy(s, src)` writes the source bytes at indices `0 … len-1` and the
terminator at index `len`, with `len = strlen(src)`. -/
def strcpyMem (s : ℕ → Char) (src : List Char) : ℕ → Char :=
  fun i =>
    if h : i < src.length then src.get ⟨i, h⟩
    else if i = src.length then nullChar
    else s i

/-! ## Settings store (`DeviceSettings`, `ReadConfiguration`,
`SaveConfiguration`)

`DeviceSettings` is declared in `FanCoilHelper.h` (not under `src/`); its
nine fields are reconstructed from their uses in FanCoilHelper.cpp
lines 145–155 and 238–247.  Fields are modelled at string level: a field
holds the C string content up to the terminator.  At this level a
successful in-bounds `copyJsonValue` replaces the content by the source
string and a `NULL` source keeps it (see `copyJsonValue` above). -/

structure DeviceSettings where
  MqttServer : String
  MqttPort : String
  MqttClientId : String
  MqttUser : String
  MqttPass : String
  BaseTopic : String
  Mode : String
  DeviceState : String
  DesiredTemperature : String
deriving DecidableEq, Repr

/-- Modelled from the spec: each `DeviceSettings` field has a declared
maximum length (`MQTT_SERVER_LEN`, …, defined in `FanCoilHelper.h`,
which is not under `src/`). -/
structure SettingsCaps where
  serverLen : ℕ
  portLen : ℕ
  clientIdLen : ℕ
  userLen : ℕ
  passLen : ℕ
  baseTopicLen : ℕ
  modeLen : ℕ
  deviceStateLen : ℕ
  desiredTemperatureLen : ℕ
deriving DecidableEq, Repr

/-- All nine fields are within their declared length bounds. -/
def withinBounds (caps : SettingsCaps) (s : DeviceSettings) : Prop :=
  s.MqttServer.length ≤ caps.serverLen ∧
  s.MqttPort.length ≤ caps.portLen ∧
  s.MqttClientId.length ≤ caps.clientIdLen ∧
  s.MqttUser.length ≤ caps.userLen ∧
  s.MqttPass.length ≤ caps.passLen ∧
  s.BaseTopic.length ≤ caps.baseTopicLen ∧
  s.Mode.length ≤ caps.modeLen ∧
  s.DeviceState.length ≤ caps.deviceStateLen ∧
  s.DesiredTemperature.length ≤ caps.desiredTemperatureLen

/-- A parsed configuration document: for each of the nine keys
(`MQTT_SERVER_KEY` … `DESIRED_TEMPERATURE_KEY`), either the key is
present with a string value or it is absent (`jsonDoc[key]` yields
`NULL`). -/
structure ConfigDoc where
  mqttServer : Option String
  mqttPort : Option String
  mqttClientId : Option String
  mqttUser : Option String
  mqttPass : Option String
  baseTopic : Option String
  mode : Option String
  deviceState : Option String
  desiredTemperature : Option String
deriving DecidableEq, Repr

/-- String-content image of `copyJsonValue` for an in-bounds source: a
`NULL` source keeps the destination content, a present source replaces
it (the copy writes the source bytes and a terminator, see
`copyJsonValue`). -/
def copyJsonValueStr (s : String) (jsonValue : Option String) : String :=
  match jsonValue with
  | Option.none => s
  | Option.some v => v

/-- The nine `copyJsonValue` calls of `ReadConfiguration`
(FanCoilHelper.cpp lines 145–155), at string level. -/
def applyConfigDoc (settings : DeviceSettings) (doc : ConfigDoc) : DeviceSettings :=
  { MqttServer := copyJsonValueStr settings.MqttServer doc.mqttServer
    MqttPort := copyJsonValueStr settings.MqttPort doc.mqttPort
    MqttClientId := copyJsonValueStr settings.MqttClientId doc.mqttClientId
    MqttUser := copyJsonValueStr settings.MqttUser doc.mqttUser
    MqttPass := copyJsonValueStr settings.MqttPass doc.mqttPass
    BaseTopic := copyJsonValueStr settings.BaseTopic doc.baseTopic
    Mode := copyJsonValueStr settings.Mode doc.mode
    DeviceState := copyJsonValueStr settings.DeviceState doc.deviceState
    DesiredTemperature :=
      copyJsonValueStr settings.DesiredTemperature doc.desiredTemperature }

/-- Outcome of the filesystem and JSON-parsing calls made by
`ReadConfiguration` (external collaborators: SPIFFS and ArduinoJson),
in the order the code checks them: mount failure (line 101), config
file absent (line 109), open failure (line 117), deserialization error
(line 131), or a successfully parsed document. -/
inductive ReadEnv
  | mountFail
  | fileAbsent
  | openFail
  | parseError
  | parsed (doc : ConfigDoc)
deriving DecidableEq, Repr

/-- `ReadConfiguration` (FanCoilHelper.cpp lines 99–159): every failure
branch returns early, leaving the settings untouched; on a parsed
document the nine fields are updated by `copyJsonValue`. -/
def ReadConfiguration (settings : DeviceSettings) (env : ReadEnv) : DeviceSettings :=
  match env with
  | ReadEnv.mountFail => settings
  | ReadEnv.fileAbsent => settings
  | ReadEnv.openFail => settings
  | ReadEnv.parseError => settings
  | ReadEnv.parsed doc => applyConfigDoc settings doc

/-- The document built by `SaveConfiguration` (FanCoilHelper.cpp lines
238–247): all nine keys present, holding the settings' field values. -/
def settingsToDoc (s : DeviceSettings) : ConfigDoc :=
  { mqttServer := Option.some s.MqttServer
    mqttPort := Option.some s.MqttPort
    mqttClientId := Option.some s.MqttClientId
    mqttUser := Option.some s.MqttUser
    mqttPass := Option.some s.MqttPass
    baseTopic := Option.some s.BaseTopic
    mode := Option.some s.Mode
    deviceState := Option.some s.DeviceState
    desiredTemperature := Option.some s.DesiredTemperature }

/-- `SaveConfiguration` (FanCoilHelper.cpp lines 226–260): if opening the
config file for writing fails, the function only logs and returns
(storage unchanged); otherwise the serialized nine-field document
overwrites the file.  Storage is modelled as the parsed content of the
config file (`none` = absent); serialize/parse of the JSON library is
the identity on documents (external collaborator treated as a faithful
codec, as the spec's interface section does). -/
def SaveConfiguration (settings : DeviceSettings) (openOk : Bool)
    (storage : Option ConfigDoc) : Option ConfigDoc :=
  if openOk then Option.some (settingsToDoc settings) else storage

/-! ## Connectivity bootstrap (`mangeConnectAndSettings`,
`saveConfigCallback`, `_shouldSaveConfig`) -/

/-- The values returned by `getValue()` of the six onboarding form
parameters (external collaborator WiFiManager): either the initial
values the form was seeded with or the user's submission. -/
structure FormValues where
  server : String
  port : String
  clientName : String
  user : String
  pass : String
  baseTopic : String
deriving DecidableEq, Repr

/-- The six `strcpy` copy-back statements of `mangeConnectAndSettings`
(FanCoilHelper.cpp lines 213–218): the six onboarding fields are
replaced by the form values; the other fields are not assigned. -/
def copyBackParams (s : DeviceSettings) (form : FormValues) : DeviceSettings :=
  { s with
    MqttServer := form.server
    MqttPort := form.port
    MqttClientId := form.clientName
    MqttUser := form.user
    MqttPass := form.pass
    BaseTopic := form.baseTopic }

/-- Result of one call of `mangeConnectAndSettings`: its boolean return
value, the settings record after the call, the storage after the call,
and whether `SaveConfiguration` was invoked during the call. -/
structure MangeResult where
  connected : Bool
  settings : DeviceSettings
  storage : Option ConfigDoc
  saveInvoked : Bool
deriving DecidableEq, Repr

/-- `mangeConnectAndSettings` (FanCoilHelper.cpp lines 167–224): reads
the configuration, seeds the form, then `autoConnect()` (external:
stored credentials or onboarding within the timeout).  On failure it
returns `false` before any save.  On success, if `_shouldSaveConfig` is
set, the six form values are copied back and `SaveConfiguration` is
invoked; otherwise nothing more happens. -/
def mangeConnectAndSettings (settings : DeviceSettings) (readEnv : ReadEnv)
    (autoConnectOk : Bool) (shouldSaveConfig : Bool) (form : FormValues)
    (saveOpenOk : Bool) (storage : Option ConfigDoc) : MangeResult :=
  let s1 := ReadConfiguration settings readEnv
  if !autoConnectOk then
    { connected := false, settings := s1, storage := storage, saveInvoked := false }
  else if shouldSaveConfig then
    let s2 := copyBackParams s1 form
    { connected := true
      settings := s2
      storage := SaveConfiguration s2 saveOpenOk storage
      saveInvoked := true }
  else
    { connected := true, settings := s1, storage := storage, saveInvoked := false }

/-- Initial value of the global flag `_shouldSaveConfig`
(FanCoilHelper.cpp line 14). -/
def shouldSaveConfigInit : Bool := false

/-- One constructor per function of FanCoilHelper.cpp, to state how each
operation of the module acts on the global `_shouldSaveConfig` flag. -/
inductive HelperOp
  | connectWiFiOp
  | calcAverageOp
  | printTopicAndPayloadOp
  | copyJsonValueOp
  | readConfigurationOp
  | mangeConnectAndSettingsOp
  | saveConfigurationOp
  | saveConfigCallbackOp
  | setArrayValuesOp
  | initSensorDataOp
deriving DecidableEq, Repr

/-- Effect of each operation on `_shouldSaveConfig`: `saveConfigCallback`
(FanCoilHelper.cpp lines 267–271) sets it to `true`; no function of the
file ever writes it otherwise (`mangeConnectAndSettings` only reads it
at line 210). -/
def stepFlag (flag : Bool) (op : HelperOp) : Bool :=
  match op with
  | HelperOp.saveConfigCallbackOp => true
  | _ => flag

/-! ## Concrete instances used by witnesses -/

/-- Destination memory filled with a sentinel byte. -/
def constXMem : ℕ → Char := fun _ => 'x'

/-- The spec's worked example readings: 20.12, 20.08, 20.31, 19.95, 20.20. -/
def rsW : List ℚ := [2012/100, 2008/100, 2031/100, 1995/100, 2020/100]

/-- A concrete existing sensor channel with a three-slot buffer. -/
def sensorW : SensorData :=
  { IsExists := true
    Current := 21
    Average := 0
    DataCollection := [1, 2, 3]
    DataCollectionLen := 3
    Precision := 1
    CheckDataIntervalMS := 1000
    DataType := SensorDataType.Temperature }

/-- Concrete declared field lengths. -/
def capsW : SettingsCaps :=
  { serverLen := 32
    portLen := 8
    clientIdLen := 32
    userLen := 16
    passLen := 16
    baseTopicLen := 32
    modeLen := 8
    deviceStateLen := 8
    desiredTemperatureLen := 8 }

/-- A concrete in-bounds settings record. -/
def settingsW : DeviceSettings :=
  { MqttServer := "broker.local"
    MqttPort := "1883"
    MqttClientId := "fancoil1"
    MqttUser := "user"
    MqttPass := "pass"
    BaseTopic := "home/fc"
    Mode := "auto"
    DeviceState := "on"
    DesiredTemperature := "22.5" }

/-- A second settings record, all fields empty. -/
def settingsBlank : DeviceSettings :=
  { MqttServer := ""
    MqttPort := ""
    MqttClientId := ""
    MqttUser := ""
    MqttPass := ""
    BaseTopic := ""
    Mode := ""
    DeviceState := ""
    DesiredTemperature := "" }

/-- A partial document: only the MQTT-server key is present. -/
def docW : ConfigDoc :=
  { mqttServer := Option.some "other.broker"
    mqttPort := Option.none
    mqttClientId := Option.none
    mqttUser := Option.none
    mqttPass := Option.none
    baseTopic := Option.none
    mode := Option.none
    deviceState := Option.none
    desiredTemperature := Option.none }

/-! ## Helper lemmas -/

theorem list_set_append (l₁ l₂ : List ℚ) (k : ℕ) (a : ℚ) :
    (l₁ ++ l₂).set (l₁.length + k) a = l₁ ++ l₂.set k a := by
  induction l₁ with
  | nil => simp
  | cons x l ih =>
    have hx : (x :: l).length + k = (l.length + k) + 1 := by
      simp [List.length_cons]; omega
    simp only [List.cons_append, hx, List.set_cons_succ, ih]

theorem foldl_set_range (v : ℚ) : ∀ (n : ℕ) (l : List ℚ), n ≤ l.length →
    (List.range n).foldl (fun a i => a.set i v) l
      = List.replicate n v ++ l.drop n := by
  intro n
  induction n with
  | zero => intro l _; simp
  | succ n ih =>
    intro l hn
    have hlt : n < l.length := hn
    rw [List.range_succ, List.foldl_append, ih l (Nat.le_of_succ_le hn)]
    simp only [List.foldl_cons, List.foldl_nil]
    rw [List.drop_eq_getElem_cons hlt]
    have h3 : (List.replicate n v ++ l[n] :: l.drop (n + 1)).set n v
        = List.replicate n v ++ (l[n] :: l.drop (n + 1)).set 0 v := by
      have h4 := list_set_append (List.replicate n v) (l[n] :: l.drop (n + 1)) 0 v
      simp only [List.length_replicate, Nat.add_zero] at h4
      exact h4
    rw [h3, List.set_cons_zero]
    simp [List.replicate_succ', List.append_assoc]

theorem recordAndAverage_buffer (s : SensorData) (v : ℚ) :
    (recordAndAverage s v).1.DataCollection = s.DataCollection.drop 1 ++ [v] := rfl

theorem recordAndAverage_avg (s : SensorData) (v : ℚ) :
    (recordAndAverage s v).1.Average
      = calcAverage (s.DataCollection.drop 1 ++ [v])
          s.DataCollectionLen s.Precision := rfl

theorem feedReadings_cons (s : SensorData) (r : ℚ) (rs : List ℚ) :
    feedReadings s (r :: rs) = feedReadings ((recordAndAverage s r).1) rs := rfl

theorem feedReadings_buffer (rs : List ℚ) : ∀ s : SensorData,
    s.DataCollection ≠ [] →
    (feedReadings s rs).DataCollection = (s.DataCollection ++ rs).drop rs.length := by
  induction rs with
  | nil => intro s _; simp [feedReadings]
  | cons r rs ih =>
    intro s hne
    rw [feedReadings_cons]
    have hne2 : (recordAndAverage s r).1.DataCollection ≠ [] := by
      rw [recordAndAverage_buffer]; simp
    rw [ih _ hne2, recordAndAverage_buffer]
    obtain ⟨c, b, hcb⟩ : ∃ c b, s.DataCollection = c :: b := by
      cases hc : s.DataCollection with
      | nil => exact absurd hc hne
      | cons c b => exact ⟨c, b, rfl⟩
    rw [hcb]
    simp [List.append_assoc]

theorem feedReadings_average (rs : List ℚ) : ∀ s : SensorData, rs ≠ [] →
    (feedReadings s rs).Average
      = calcAverage (feedReadings s rs).DataCollection
          s.DataCollectionLen s.Precision := by
  induction rs with
  | nil => intro s h; exact absurd rfl h
  | cons r rs ih =>
    intro s _
    cases rs with
    | nil =>
      rw [feedReadings_cons]
      exact recordAndAverage_avg s r
    | cons r2 rs2 =>
      rw [feedReadings_cons]
      exact ih ((recordAndAverage s r).1) (by simp)

theorem stepFlag_true (op : HelperOp) : stepFlag true op = true := by
  cases op <;> rfl

/-! ## Claim theorems -/

/-- C1, counterexample: the claim says `copyJsonValue` never writes at or
past the destination's declared maximum length regardless of the source
length.  It is false: with declared length 2 and a three-byte source, the
copy writes the source byte 'a' at index 2. -/
theorem copyJsonValue_overflow_cex : ¬ copyStaysWithin 2 := by
  intro h
  have h2 := h constXMem (Option.some ['a', 'a', 'a']) 2 (by omega)
  have h3 : copyJsonValue constXMem (Option.some ['a', 'a', 'a']) 2 = 'a' := rfl
  rw [h3] at h2
  exact absurd h2 (by decide)

/-- C1 (amended): at both copy sites — `copyJsonValue` with a non-null
source, and each copy-back `strcpy` after onboarding — provided the
source string is strictly shorter than the destination's declared
maximum length, the copy writes nothing at or past that length, writes
exactly the source bytes at indices `0 … len-1`, null-terminates at
index `len`, and a `NULL` source leaves the destination untouched. -/
theorem copy_sites_bounded (s : ℕ → Char) (cap : ℕ) (v : List Char)
    (hb : v.length < cap) :
    (∀ i, cap ≤ i → copyJsonValue s (Option.some v) i = s i) ∧
    copyJsonValue s (Option.some v) v.length = nullChar ∧
    (∀ i (h : i < v.length), copyJsonValue s (Option.some v) i = v.get ⟨i, h⟩) ∧
    (∀ t : ℕ → Char, copyJsonValue t Option.none = t) ∧
    (∀ i, cap ≤ i → strcpyMem s v i = s i) ∧
    strcpyMem s v v.length = nullChar ∧
    (∀ i (h : i < v.length), strcpyMem s v i = v.get ⟨i, h⟩) := by
  refine ⟨?_, ?_, ?_, fun t => rfl, ?_, ?_, ?_⟩
  · intro i hi
    have h1 : ¬ i < v.length := by omega
    have h2 : ¬ i = v.length := by omega
    simp [copyJsonValue, h1, h2]
  · simp [copyJsonValue]
  · intro i h
    simp [copyJsonValue, h]
  · intro i hi
    have h1 : ¬ i < v.length := by omega
    have h2 : ¬ i = v.length := by omega
    simp [strcpyMem, h1, h2]
  · simp [strcpyMem]
  · intro i h
    simp [strcpyMem, h]

/-- C1, witness for the amended theorem at a concrete input. -/
theorem copy_sites_bounded_witness :
    (['a', 'b'] : List Char).length < 4 ∧
    ((∀ i, 4 ≤ i → copyJsonValue constXMem (Option.some ['a', 'b']) i = constXMem i) ∧
     copyJsonValue constXMem (Option.some ['a', 'b'])
       (['a', 'b'] : List Char).length = nullChar ∧
     (∀ i (h : i < (['a', 'b'] : List Char).length),
        copyJsonValue constXMem (Option.some ['a', 'b']) i
          = (['a', 'b'] : List Char).get ⟨i, h⟩) ∧
     (∀ t : ℕ → Char, copyJsonValue t Option.none = t) ∧
     (∀ i, 4 ≤ i → strcpyMem constXMem ['a', 'b'] i = constXMem i) ∧
     strcpyMem constXMem ['a', 'b'] (['a', 'b'] : List Char).length = nullChar ∧
     (∀ i (h : i < (['a', 'b'] : List Char).length),
        strcpyMem constXMem ['a', 'b'] i = (['a', 'b'] : List Char).get ⟨i, h⟩)) :=
  ⟨by decide, copy_sites_bounded constXMem 4 ['a', 'b'] (by decide)⟩

/-- C2: once at least `capacity` readings have been fed through
`recordAndAverage`, the channel's average is the arithmetic mean of
exactly the last `capacity` readings, rounded to the channel's precision
(oldest-evicted semantics). -/
theorem recordAndAverage_window (s : SensorData) (rs : List ℚ)
    (hlen : s.DataCollection.length = s.DataCollectionLen)
    (hcap : 0 < s.DataCollectionLen)
    (hN : s.DataCollectionLen ≤ rs.length) :
    (feedReadings s rs).Average
      = roundF ((rs.drop (rs.length - s.DataCollectionLen)).sum
          / (s.DataCollectionLen : ℚ)) s.Precision := by
  have hbne : s.DataCollection ≠ [] := by
    intro h
    rw [h] at hlen
    simp at hlen
    omega
  have hrsne : rs ≠ [] := by
    intro h
    rw [h] at hN
    simp at hN
    omega
  rw [feedReadings_average rs s hrsne, feedReadings_buffer rs s hbne]
  have hB : (s.DataCollection ++ rs).drop rs.length
      = rs.drop (rs.length - s.DataCollectionLen) := by
    rw [List.drop_append_eq_append_drop, List.drop_eq_nil_of_le (by omega), hlen]
    simp
  rw [hB]
  have htake : (rs.drop (rs.length - s.DataCollectionLen)).take s.DataCollectionLen
      = rs.drop (rs.length - s.DataCollectionLen) := by
    apply List.take_of_length_le
    rw [List.length_drop]
    omega
  simp only [calcAverage, htake]

/-- C2, witness: the spec's worked example, capacity 5 and precision 1. -/
theorem recordAndAverage_window_witness :
    (TemperatureData.DataCollection.length = TemperatureData.DataCollectionLen ∧
     0 < TemperatureData.DataCollectionLen ∧
     TemperatureData.DataCollectionLen ≤ rsW.length) ∧
    (feedReadings TemperatureData rsW).Average
      = roundF ((rsW.drop (rsW.length - TemperatureData.DataCollectionLen)).sum
          / (TemperatureData.DataCollectionLen : ℚ)) TemperatureData.Precision :=
  ⟨⟨by decide, by decide, by decide⟩,
   recordAndAverage_window TemperatureData rsW (by decide) (by decide) (by decide)⟩

/-- C3: `setArrayValues` is a no-op when the channel's exists flag is
false; otherwise it fills all `DataCollectionLen` slots of the buffer
with the channel's current reading and sets the average to that same
reading. -/
theorem setArrayValues_spec (s : SensorData)
    (hlen : s.DataCollection.length = s.DataCollectionLen) :
    (s.IsExists = false → setArrayValues s = s) ∧
    (s.IsExists = true →
      (setArrayValues s).DataCollection
          = List.replicate s.DataCollectionLen s.Current ∧
      (setArrayValues s).Average = s.Current) := by
  constructor
  · intro h
    simp [setArrayValues, h]
  · intro h
    have hle : s.DataCollectionLen ≤ s.DataCollection.length := le_of_eq hlen.symm
    constructor
    · simp only [setArrayValues, h, Bool.not_true, Bool.false_eq_true, if_false]
      rw [foldl_set_range s.Current s.DataCollectionLen s.DataCollection hle]
      rw [List.drop_eq_nil_of_le (le_of_eq hlen)]
      simp
    · simp [setArrayValues, h]

/-- C3, witness at a concrete existing channel. -/
theorem setArrayValues_spec_witness :
    sensorW.DataCollection.length = sensorW.DataCollectionLen ∧
    ((sensorW.IsExists = false → setArrayValues sensorW = sensorW) ∧
     (sensorW.IsExists = true →
       (setArrayValues sensorW).DataCollection
           = List.replicate sensorW.DataCollectionLen sensorW.Current ∧
       (setArrayValues sensorW).Average = sensorW.Current)) :=
  ⟨by decide, setArrayValues_spec sensorW (by decide)⟩

/-- C4: every failure branch of `ReadConfiguration` (mount failure,
absent config file, open failure, parse error) leaves the settings
record exactly as it was. -/
theorem ReadConfiguration_error_frame (s : DeviceSettings) :
    ReadConfiguration s ReadEnv.mountFail = s ∧
    ReadConfiguration s ReadEnv.fileAbsent = s ∧
    ReadConfiguration s ReadEnv.openFail = s ∧
    ReadConfiguration s ReadEnv.parseError = s :=
  ⟨rfl, rfl, rfl, rfl⟩

/-- C5: loading a well-formed document updates exactly the fields whose
keys are present; a field whose key is absent keeps its pre-call value
(nine field-wise pairs: absent-key case, present-key case). -/
theorem ReadConfiguration_absentKeys (s : DeviceSettings) (doc : ConfigDoc) :
    ((doc.mqttServer = Option.none →
        (ReadConfiguration s (ReadEnv.parsed doc)).MqttServer = s.MqttServer) ∧
     (∀ v, doc.mqttServer = Option.some v →
        (ReadConfiguration s (ReadEnv.parsed doc)).MqttServer = v)) ∧
    ((doc.mqttPort = Option.none →
        (ReadConfiguration s (ReadEnv.parsed doc)).MqttPort = s.MqttPort) ∧
     (∀ v, doc.mqttPort = Option.some v →
        (ReadConfiguration s (ReadEnv.parsed doc)).MqttPort = v)) ∧
    ((doc.mqttClientId = Option.none →
        (ReadConfiguration s (ReadEnv.parsed doc)).MqttClientId = s.MqttClientId) ∧
     (∀ v, doc.mqttClientId = Option.some v →
        (ReadConfiguration s (ReadEnv.parsed doc)).MqttClientId = v)) ∧
    ((doc.mqttUser = Option.none →
        (ReadConfiguration s (ReadEnv.parsed doc)).MqttUser = s.MqttUser) ∧
     (∀ v, doc.mqttUser = Option.some v →
        (ReadConfiguration s (ReadEnv.parsed doc)).MqttUser = v)) ∧
    ((doc.mqttPass = Option.none →
        (ReadConfiguration s (ReadEnv.parsed doc)).MqttPass = s.MqttPass) ∧
     (∀ v, doc.mqttPass = Option.some v →
        (ReadConfiguration s (ReadEnv.parsed doc)).MqttPass = v)) ∧
    ((doc.baseTopic = Option.none →
        (ReadConfiguration s (ReadEnv.parsed doc)).BaseTopic = s.BaseTopic) ∧
     (∀ v, doc.baseTopic = Option.some v →
        (ReadConfiguration s (ReadEnv.parsed doc)).BaseTopic = v)) ∧
    ((doc.mode = Option.none →
        (ReadConfiguration s (ReadEnv.parsed doc)).Mode = s.Mode) ∧
     (∀ v, doc.mode = Option.some v →
        (ReadConfiguration s (ReadEnv.parsed doc)).Mode = v)) ∧
    ((doc.deviceState = Option.none →
        (ReadConfiguration s (ReadEnv.parsed doc)).DeviceState = s.DeviceState) ∧
     (∀ v, doc.deviceState = Option.some v →
        (ReadConfiguration s (ReadEnv.parsed doc)).DeviceState = v)) ∧
    ((doc.desiredTemperature = Option.none →
        (ReadConfiguration s (ReadEnv.parsed doc)).DesiredTemperature
          = s.DesiredTemperature) ∧
     (∀ v, doc.desiredTemperature = Option.some v →
        (ReadConfiguration s (ReadEnv.parsed doc)).DesiredTemperature = v)) := by
  refine ⟨⟨?_, ?_⟩, ⟨?_, ?_⟩, ⟨?_, ?_⟩, ⟨?_, ?_⟩, ⟨?_, ?_⟩, ⟨?_, ?_⟩, ⟨?_, ?_⟩,
    ⟨?_, ?_⟩, ⟨?_, ?_⟩⟩ <;>
  first
  | (intro h
     simp [ReadConfiguration, applyConfigDoc, copyJsonValueStr, h])
  | (intro v h
     simp [ReadConfiguration, applyConfigDoc, copyJsonValueStr, h])

/-- C5, witness: a document with only the MQTT-server key present leaves
the other fields (here `Mode`) at their pre-call values and updates the
server field. -/
theorem ReadConfiguration_absentKeys_witness :
    (ReadConfiguration settingsW (ReadEnv.parsed docW)).MqttServer = "other.broker" ∧
    (ReadConfiguration settingsW (ReadEnv.parsed docW)).Mode = settingsW.Mode :=
  ⟨(ReadConfiguration_absentKeys settingsW docW).1.2 "other.broker" rfl,
   (ReadConfiguration_absentKeys settingsW docW).2.2.2.2.2.2.1.1 rfl⟩

/-- C6: when `autoConnect` fails (no stored credentials succeed and the
onboarding flow produces no connection within the timeout),
`mangeConnectAndSettings` returns false and `SaveConfiguration` is not
invoked during the call. -/
theorem mangeConnectAndSettings_timeout (s : DeviceSettings) (env : ReadEnv)
    (flag : Bool) (form : FormValues) (saveOpenOk : Bool)
    (storage : Option ConfigDoc) :
    (mangeConnectAndSettings s env false flag form saveOpenOk storage).connected
        = false ∧
    (mangeConnectAndSettings s env false flag form saveOpenOk storage).saveInvoked
        = false ∧
    (mangeConnectAndSettings s env false flag form saveOpenOk storage).storage
        = storage :=
  ⟨rfl, rfl, rfl⟩

/-- C7: saving a settings record whose nine fields are within their
declared length bounds and then loading the resulting document into any
settings record reproduces the saved record field by field. -/
theorem settings_roundtrip (caps : SettingsCaps) (s t : DeviceSettings)
    (hb : withinBounds caps s) (storage : Option ConfigDoc) :
    SaveConfiguration s true storage = Option.some (settingsToDoc s) ∧
    ReadConfiguration t (ReadEnv.parsed (settingsToDoc s)) = s :=
  ⟨rfl, rfl⟩

/-- C7, witness at concrete records and bounds. -/
theorem settings_roundtrip_witness :
    withinBounds capsW settingsW ∧
    (SaveConfiguration settingsW true Option.none
        = Option.some (settingsToDoc settingsW) ∧
     ReadConfiguration settingsBlank (ReadEnv.parsed (settingsToDoc settingsW))
        = settingsW) :=
  ⟨by unfold withinBounds capsW settingsW; decide,
   settings_roundtrip capsW settingsW settingsBlank
     (by unfold withinBounds capsW settingsW; decide) Option.none⟩

/-- C8: after `initializeSensorData`, every channel's buffer length is
the fixed positive per-channel constant, the cast divisor is non-zero,
and `calcAverage` divides the sum of the first `dataLength` slots by
exactly that `dataLength`. -/
theorem calcAverage_divisor_nonzero :
    (0 < TemperatureData.DataCollectionLen ∧
      (TemperatureData.DataCollectionLen : ℚ) ≠ 0) ∧
    (0 < HumidityData.DataCollectionLen ∧
      (HumidityData.DataCollectionLen : ℚ) ≠ 0) ∧
    (0 < InletData.DataCollectionLen ∧
      (InletData.DataCollectionLen : ℚ) ≠ 0) ∧
    ∀ (data : List ℚ) (n p : ℕ),
      calcAverage data n p = roundF ((data.take n).sum / (n : ℚ)) p := by
  refine ⟨⟨by decide, by norm_num [TemperatureData, initSensorChannel,
      TEMPERATURE_ARRAY_LEN]⟩,
    ⟨by decide, by norm_num [HumidityData, initSensorChannel, HUMIDITY_ARRAY_LEN]⟩,
    ⟨by decide, by norm_num [InletData, initSensorChannel, INLET_ARRAY_LEN]⟩,
    fun data n p => rfl⟩

/-- C9: `_shouldSaveConfig` starts false, `saveConfigCallback` sets it
true, no operation of the module resets it; hence after the callback has
fired, every successfully connecting `mangeConnectAndSettings` call
copies the six form values into the settings and invokes
`SaveConfiguration`, whatever the form values are. -/
theorem shouldSaveConfig_monotone :
    shouldSaveConfigInit = false ∧
    (∀ f, stepFlag f HelperOp.saveConfigCallbackOp = true) ∧
    (∀ op, stepFlag true op = true) ∧
    (∀ ops : List HelperOp, ops.foldl stepFlag true = true) ∧
    (∀ s env form saveOpenOk storage,
      (mangeConnectAndSettings s env true true form saveOpenOk storage).settings
          = copyBackParams (ReadConfiguration s env) form ∧
      (mangeConnectAndSettings s env true true form saveOpenOk storage).saveInvoked
          = true) := by
  refine ⟨rfl, fun f => rfl, stepFlag_true, ?_, fun s env form so st => ⟨rfl, rfl⟩⟩
  intro ops
  induction ops with
  | nil => rfl
  | cons op ops ih =>
    rw [List.foldl_cons, stepFlag_true op]
    exact ih

/-- C10: the copy-back performed on a successful connection with the
save-pending flag set replaces exactly the six onboarding fields with
the form values; `Mode`, `DeviceState` and `DesiredTemperature` are
unchanged by the copy-back. -/
theorem copyBack_frame (s : DeviceSettings) (env : ReadEnv) (form : FormValues)
    (saveOpenOk : Bool) (storage : Option ConfigDoc) :
    (copyBackParams s form).Mode = s.Mode ∧
    (copyBackParams s form).DeviceState = s.DeviceState ∧
    (copyBackParams s form).DesiredTemperature = s.DesiredTemperature ∧
    (copyBackParams s form).MqttServer = form.server ∧
    (copyBackParams s form).MqttPort = form.port ∧
    (copyBackParams s form).MqttClientId = form.clientName ∧
    (copyBackParams s form).MqttUser = form.user ∧
    (copyBackParams s form).MqttPass = form.pass ∧
    (copyBackParams s form).BaseTopic = form.baseTopic ∧
    (mangeConnectAndSettings s env true true form saveOpenOk storage).settings.Mode
        = (ReadConfiguration s env).Mode ∧
    (mangeConnectAndSettings s env true true form saveOpenOk storage).settings.DeviceState
        = (ReadConfiguration s env).DeviceState ∧
    (mangeConnectAndSettings s env true true form saveOpenOk
        storage).settings.DesiredTemperature
        = (ReadConfiguration s env).DesiredTemperature :=
  ⟨rfl, rfl, rfl, rfl, rfl, rfl, rfl, rfl, rfl, rfl, rfl, rfl⟩

end FanCoil
